import Mathlib

/-!
Verification of the pH-Scale chemistry model (PhET ph-scale).

The numeric core of the simulation is documented in doc/model.md and
implemented in PHModel.js.  The view layer (SolutionNode.js, RatioNode in
the molecules file, LogarithmicGraphNode, PHScaleConstants) supplies the
remaining computations.  This file embeds those computations over the real
numbers (JavaScript floating point is idealized as exact real arithmetic;
the claims under examination are stated up to floating tolerance) and over
the rationals where the source arithmetic is exact.
-/

namespace PHScale

open Real

/-! ## pH / concentration conversions (doc/model.md, Computations section) -/

/-- Concentration of hydronium, from doc/model.md: the concentration of
hydronium is 10 raised to the power of the negated pH, in moles per liter. -/
noncomputable def concentrationH3O (pH : ℝ) : ℝ := (10 : ℝ) ^ (-pH)

/-- Concentration of hydroxide, from doc/model.md: 10 raised to the power
of the pH minus 14, in moles per liter. -/
noncomputable def concentrationOH (pH : ℝ) : ℝ := (10 : ℝ) ^ (pH - 14)

/-- Concentration of water, from doc/model.md: 55 divided by the volume. -/
noncomputable def concentrationH2O (volume : ℝ) : ℝ := 55 / volume

/-- pH recovered from a hydronium concentration, from doc/model.md: if the
concentration of hydronium is changed, then the pH is the negated base-10
logarithm of that concentration. -/
noncomputable def pHFromConcentrationH3O (c : ℝ) : ℝ := -(Real.logb 10 c)

/-- pH recovered from a hydroxide concentration, from doc/model.md: if the
concentration of hydroxide is changed, then the pH is 14 plus the base-10
logarithm of that concentration. -/
noncomputable def pHFromConcentrationOH (c : ℝ) : ℝ := 14 + Real.logb 10 c

/-! ## Moles and molecule counts (doc/model.md, Definitions and Computations) -/

/-- Avogadro's number as defined in doc/model.md, Definitions section:
6.023E23 molecules per mole (the value the repository fixes, slightly
different from the physical 6.02214E23). -/
noncomputable def AVOGADROS_NUMBER : ℝ := 6.023e23

/-- Moles of hydronium in a volume of liquid: concentration times volume
(doc/model.md molecule-count formula divided by Avogadro's number, spec 4.3). -/
noncomputable def molesH3O (pH volume : ℝ) : ℝ := concentrationH3O pH * volume

/-- Moles of hydroxide in a volume of liquid: concentration times volume. -/
noncomputable def molesOH (pH volume : ℝ) : ℝ := concentrationOH pH * volume

/-- Moles of water in a volume of liquid: 55 moles per liter times volume. -/
noncomputable def molesH2O (volume : ℝ) : ℝ := 55 * volume

/-- Number of hydronium molecules, from doc/model.md: 10 to the power of
the negated pH, times Avogadro's number, times the volume. -/
noncomputable def moleculesH3O (pH volume : ℝ) : ℝ :=
  (10 : ℝ) ^ (-pH) * AVOGADROS_NUMBER * volume

/-- Number of hydroxide molecules, from doc/model.md: 10 to the power of
pH minus 14, times Avogadro's number, times the volume. -/
noncomputable def moleculesOH (pH volume : ℝ) : ℝ :=
  (10 : ℝ) ^ (pH - 14) * AVOGADROS_NUMBER * volume

/-- Number of water molecules, from doc/model.md: 55 times Avogadro's
number times the volume. -/
noncomputable def moleculesH2O (volume : ℝ) : ℝ := 55 * AVOGADROS_NUMBER * volume

/-! ## pH from moles (doc/model.md formulas; error policy from the spec) -/

/-- The single error kind of the numeric core: an input outside the valid
domain, such as a non-positive volume where a division by volume occurs. -/
inductive DomainError where
  | mk

/-- Modelled from the spec: PHModel.js (the molesH3OToPH conversion) is not
part of the sources at hand; doc/model.md gives the formula, the pH is the
negated base-10 logarithm of moles over total volume, and the spec requires
a DomainError for volume less than or equal to zero. -/
noncomputable def pHFromMolesH3O (n volume : ℝ) : Except DomainError ℝ :=
  if volume ≤ 0 then Except.error DomainError.mk
  else Except.ok (-(Real.logb 10 (n / volume)))

/-- Modelled from the spec: PHModel.js (the molesOHToPH conversion) is not
part of the sources at hand; doc/model.md gives the formula, the pH is 14
plus the base-10 logarithm of moles over total volume, and the spec requires
a DomainError for volume less than or equal to zero. -/
noncomputable def pHFromMolesOH (n volume : ℝ) : Except DomainError ℝ :=
  if volume ≤ 0 then Except.error DomainError.mk
  else Except.ok (14 + Real.logb 10 (n / volume))

/-! ## Combining two volumes of liquid -/

/-- The two-bases combination formula exactly as written in doc/model.md,
line computing the combined pH of two bases: 14 plus the base-10 logarithm
of (10 to the power pH1 minus 14, times V1, plus 10 to the power 14 minus
pH2, times V2) over the total volume.  Note the second exponent is written
14 minus pH2 there, not pH2 minus 14. -/
noncomputable def combinedPHBases_doc (pH1 V1 pH2 V2 : ℝ) : ℝ :=
  14 + Real.logb 10
    (((10 : ℝ) ^ (pH1 - 14) * V1 + (10 : ℝ) ^ (14 - pH2) * V2) / (V1 + V2))

/-- Modelled from the spec: PHModel.js (the combine operation) is not part
of the sources at hand.  Per spec 4.2: classify each liquid by pH; two
acids, or acid plus neutral water, combine through the weighted-average
hydronium concentration; two bases, or base plus neutral water, combine
through the weighted-average hydroxide concentration with the symmetric
exponents pH1 minus 14 and pH2 minus 14; the two branches agree at pH 7,
and combining an acid with a base is undefined. -/
noncomputable def combinePH (pH1 V1 pH2 V2 : ℝ) : Option ℝ :=
  if pH1 ≤ 7 ∧ pH2 ≤ 7 then
    some (-(Real.logb 10
      (((10 : ℝ) ^ (-pH1) * V1 + (10 : ℝ) ^ (-pH2) * V2) / (V1 + V2))))
  else if 7 ≤ pH1 ∧ 7 ≤ pH2 then
    some (14 + Real.logb 10
      (((10 : ℝ) ^ (pH1 - 14) * V1 + (10 : ℝ) ^ (pH2 - 14) * V2) / (V1 + V2)))
  else none

/-! ## Solution pH and the RatioNode ratio property -/

/-- Modelled from the spec: the solution model classes (MacroModel and the
SolutionMixin hierarchy) are not part of the sources at hand; per the spec,
pH is only defined when the total volume is positive, so the solution's pH
property is null (none) when the beaker is empty. -/
noncomputable def solutionPHProperty (totalVolume pH : ℝ) : Option ℝ :=
  if 0 < totalVolume then some pH else none

/-- The ratio property of RatioNode: for a non-null pH it is the hydronium
concentration divided by the hydroxide concentration, and it is null when
the pH is null (the beaker is empty). -/
noncomputable def ratioProperty (pH : Option ℝ) : Option ℝ :=
  match pH with
  | none => none
  | some pH => some (concentrationH3O pH / concentrationOH pH)

/-! ## SolutionNode volume floor (PHScaleConstants, SolutionNode.js) -/

/-- Minimum non-zero volume for the displayed solution, in liters, from
PHScaleConstants: 0.015, so the solution is visible and measurable. -/
def MIN_SOLUTION_VOLUME : ℚ := 0.015

/-- The volume actually used by SolutionNode's volume listener: a volume
that is non-zero but below the minimum is replaced by the minimum; zero and
volumes at or above the minimum pass through unchanged. -/
def displayedVolume (volume : ℚ) : ℚ :=
  if volume ≠ 0 ∧ volume < MIN_SOLUTION_VOLUME then MIN_SOLUTION_VOLUME
  else volume

/-! ## LogarithmicGraphNode value/position mapping -/

/-- Maximum exponent of the logarithmic graph scale, from
PHScaleConstants.LOGARITHMIC_EXPONENT_RANGE. -/
def LOGARITHMIC_EXPONENT_MAX : ℝ := 2

/-- Minimum exponent of the logarithmic graph scale, from
PHScaleConstants.LOGARITHMIC_EXPONENT_RANGE. -/
def LOGARITHMIC_EXPONENT_MIN : ℝ := -16

/-- Linear interpolation from the dot library: maps a1 to b1 and a2 to b2,
evaluated at a3. -/
noncomputable def linearMap (a1 a2 b1 b2 a3 : ℝ) : ℝ :=
  b1 + (b2 - b1) * (a3 - a1) / (a2 - a1)

/-- Given a value, its y position relative to the top of the scale, from
LogarithmicGraphNode: zero sits below the bottom tick; otherwise the
position is linear in the base-10 logarithm of the value over the exponent
range. -/
noncomputable def valueToY (scaleHeight scaleYMargin value : ℝ) : ℝ :=
  if value = 0 then scaleHeight - 0.5 * scaleYMargin
  else
    scaleYMargin + (scaleHeight - 2 * scaleYMargin) -
      (scaleHeight - 2 * scaleYMargin) *
        (Real.logb 10 value - LOGARITHMIC_EXPONENT_MIN) /
        (LOGARITHMIC_EXPONENT_MAX - LOGARITHMIC_EXPONENT_MIN)

/-- Given a y position relative to the top of the scale, the corresponding
value, from LogarithmicGraphNode: 10 raised to the linearly interpolated
exponent. -/
noncomputable def yToValue (scaleHeight scaleYMargin y : ℝ) : ℝ :=
  (10 : ℝ) ^ (linearMap 0 (scaleHeight - 2 * scaleYMargin)
    LOGARITHMIC_EXPONENT_MAX LOGARITHMIC_EXPONENT_MIN (y - scaleYMargin))

/-! ## RatioNode molecule counts (the molecules view file, RatioNode) -/

/-- Total number of molecules drawn at pH 7, a RatioNode constant. -/
def TOTAL_MOLECULES_AT_PH_7 : ℝ := 100

/-- Maximum number of majority-species molecules drawn, a RatioNode
constant. -/
def MAX_MAJORITY_MOLECULES : ℝ := 3000

/-- Minimum number of minority-species molecules drawn, a RatioNode
constant: any non-zero number of particles is raised to this number. -/
def MIN_MINORITY_MOLECULES : ℝ := 5

/-- Symmetric rounding from the dot library utilities: round the absolute
value half up and reapply the sign (round half away from zero). -/
noncomputable def roundSymmetric (x : ℝ) : ℤ :=
  if x < 0 then -(round (-x)) else round x

/-- Number of hydronium molecules drawn for a pH, from RatioNode: symmetric
rounding of the hydronium concentration times half the pH-7 total, divided
by 1e-7. -/
noncomputable def computeNumberOfH3O (pH : ℝ) : ℝ :=
  (roundSymmetric (concentrationH3O pH * (TOTAL_MOLECULES_AT_PH_7 / 2) / 1e-7) : ℝ)

/-- Number of hydroxide molecules drawn for a pH, from RatioNode: symmetric
rounding of the hydroxide concentration times half the pH-7 total, divided
by 1e-7. -/
noncomputable def computeNumberOfOH (pH : ℝ) : ℝ :=
  (roundSymmetric (concentrationOH pH * (TOTAL_MOLECULES_AT_PH_7 / 2) / 1e-7) : ℝ)

/-- The pair of molecule counts computed by RatioNode.update and passed to
setNumberOfMolecules: zero for both species when the pH is null; inside the
logarithmic pH range [6,8] both counts come from the concentrations with a
floor of MIN_MINORITY_MOLECULES; outside that range the majority species
count grows linearly with slope N while the minority count is floored. -/
noncomputable def updateCounts (pH : Option ℝ) : ℤ × ℤ :=
  match pH with
  | none => (0, 0)
  | some pH =>
    if 6 ≤ pH ∧ pH ≤ 8 then
      (roundSymmetric (max MIN_MINORITY_MOLECULES (computeNumberOfH3O pH)),
       roundSymmetric (max MIN_MINORITY_MOLECULES (computeNumberOfOH pH)))
    else
      if 8 < pH then
        (roundSymmetric
          (max MIN_MINORITY_MOLECULES (computeNumberOfH3O 8 - (pH - 8))),
         roundSymmetric (computeNumberOfOH 8 + (pH - 8) *
           ((MAX_MAJORITY_MOLECULES - computeNumberOfOH 8) / (15 - 8))))
      else
        (roundSymmetric (computeNumberOfH3O 6 + (6 - pH) *
           ((MAX_MAJORITY_MOLECULES - computeNumberOfOH 8) / (15 - 8))),
         roundSymmetric
          (max MIN_MINORITY_MOLECULES (computeNumberOfOH 6 - (6 - pH))))

/-! ## Theorems -/

/-- Symmetric rounding of an integer is that integer. -/
theorem roundSymmetric_intCast (n : ℤ) : roundSymmetric ((n : ℝ)) = n := by
  unfold roundSymmetric
  split_ifs with h
  · rw [show -((n : ℝ)) = (((-n : ℤ)) : ℝ) by push_cast; ring, round_intCast]
    ring
  · exact round_intCast n

/-- Symmetric rounding does not go below an integer lower bound of at
least 0. -/
theorem le_roundSymmetric_of_le {x : ℝ} {m : ℤ} (hm : 0 ≤ m)
    (h : (m : ℝ) ≤ x) : m ≤ roundSymmetric x := by
  unfold roundSymmetric
  have hx : ¬ x < 0 := not_lt.mpr (le_trans (by exact_mod_cast hm) h)
  rw [if_neg hx, round_eq]
  refine Int.le_floor.mpr ?_
  linarith

/-- C3: for every pH in the valid range, converting pH to hydronium
concentration and back is the identity; the round trip of
pHFromConcentrationH3O after concentrationH3O returns the original pH. -/
theorem pHFromConcentrationH3O_roundTrip (pH : ℝ)
    (hlo : -1 ≤ pH) (hhi : pH ≤ 15) :
    pHFromConcentrationH3O (concentrationH3O pH) = pH := by
  unfold pHFromConcentrationH3O concentrationH3O
  rw [Real.logb_rpow (by norm_num) (by norm_num), neg_neg]

/-- Witness for C3: the round trip is the identity at pH 7. -/
theorem pHFromConcentrationH3O_roundTrip_witness :
    pHFromConcentrationH3O (concentrationH3O 7) = 7 :=
  pHFromConcentrationH3O_roundTrip 7 (by norm_num) (by norm_num)

/-- C4: for every pH, the product of the hydronium and hydroxide
concentrations computed from it equals the water ion product 1e-14. -/
theorem concentration_water_ion_product (pH : ℝ) :
    concentrationH3O pH * concentrationOH pH = 1e-14 := by
  unfold concentrationH3O concentrationOH
  rw [← Real.rpow_add (by norm_num : (0 : ℝ) < 10)]
  rw [show -pH + (pH - 14) = ((-14 : ℤ) : ℝ) by push_cast; ring]
  rw [Real.rpow_intCast]
  norm_num

/-- C1: the two-bases combination formula as literally documented in
doc/model.md uses exponent 14 minus pH2 for the second liquid; combining
two identical bases at pH 8 with equal volumes 1 L then yields a pH above
15 (outside the valid pH range), while the symmetric formula of the spec
yields 8.  The documented formula contradicts the model's own acid branch
symmetry and the spec, so the doc line is the slip. -/
theorem combinedPHBases_doc_asymmetry_bug :
    15 < combinedPHBases_doc 8 1 8 1 ∧ combinePH 8 1 8 1 = some 8 := by
  have e1 : ((8 : ℝ) - 14) = -(6 : ℝ) := by norm_num
  have e2 : ((14 : ℝ) - 8) = (6 : ℝ) := by norm_num
  have hneg : (10 : ℝ) ^ (-(6 : ℝ)) = 1 / 1000000 := by
    rw [show (-(6 : ℝ)) = ((-6 : ℤ) : ℝ) by norm_num, Real.rpow_intCast]
    norm_num
  have hpos6 : (10 : ℝ) ^ ((6 : ℝ)) = 1000000 := by
    rw [show ((6 : ℝ)) = ((6 : ℕ) : ℝ) by norm_num, Real.rpow_natCast]
    norm_num
  constructor
  · unfold combinedPHBases_doc
    rw [e1, e2, hneg, hpos6]
    have hX : (0 : ℝ) < ((1 : ℝ) / 1000000 * 1 + 1000000 * 1) / (1 + 1) := by
      norm_num
    have h1 : (1 : ℝ) <
        Real.logb 10 (((1 : ℝ) / 1000000 * 1 + 1000000 * 1) / (1 + 1)) := by
      rw [Real.lt_logb_iff_rpow_lt (by norm_num : (1 : ℝ) < 10) hX, Real.rpow_one]
      norm_num
    linarith
  · unfold combinePH
    rw [if_neg (by norm_num : ¬((8 : ℝ) ≤ 7 ∧ (8 : ℝ) ≤ 7)),
        if_pos (by norm_num : (7 : ℝ) ≤ 8 ∧ (7 : ℝ) ≤ 8)]
    rw [e1, hneg]
    have harg : ((1 : ℝ) / 1000000 * 1 + 1 / 1000000 * 1) / (1 + 1)
        = (10 : ℝ) ^ (-(6 : ℝ)) := by
      rw [hneg]; norm_num
    rw [harg, Real.logb_rpow (by norm_num) (by norm_num)]
    norm_num

/-- C2: for every same-class pair of liquids (both at most pH 7, or both at
least pH 7, which covers both acidic, both basic, and neutral-water cases)
with non-negative volumes of positive total, the combine operation is
commutative. -/
theorem combinePH_comm (pH1 V1 pH2 V2 : ℝ)
    (hclass : (pH1 ≤ 7 ∧ pH2 ≤ 7) ∨ (7 ≤ pH1 ∧ 7 ≤ pH2))
    (hV1 : 0 ≤ V1) (hV2 : 0 ≤ V2) (hVT : 0 < V1 + V2) :
    combinePH pH1 V1 pH2 V2 = combinePH pH2 V2 pH1 V1 := by
  unfold combinePH
  by_cases hA : pH1 ≤ 7 ∧ pH2 ≤ 7
  · rw [if_pos hA, if_pos (⟨hA.2, hA.1⟩ : pH2 ≤ 7 ∧ pH1 ≤ 7)]
    have harg : ((10 : ℝ) ^ (-pH1) * V1 + (10 : ℝ) ^ (-pH2) * V2) / (V1 + V2)
        = ((10 : ℝ) ^ (-pH2) * V2 + (10 : ℝ) ^ (-pH1) * V1) / (V2 + V1) := by
      ring
    rw [harg]
  · have hA' : ¬(pH2 ≤ 7 ∧ pH1 ≤ 7) := fun h => hA ⟨h.2, h.1⟩
    rcases hclass with h | hB
    · exact absurd h hA
    · rw [if_neg hA, if_neg hA', if_pos hB,
        if_pos (⟨hB.2, hB.1⟩ : 7 ≤ pH2 ∧ 7 ≤ pH1)]
      have harg :
          ((10 : ℝ) ^ (pH1 - 14) * V1 + (10 : ℝ) ^ (pH2 - 14) * V2) / (V1 + V2)
          = ((10 : ℝ) ^ (pH2 - 14) * V2 + (10 : ℝ) ^ (pH1 - 14) * V1) / (V2 + V1) := by
        ring
      rw [harg]

/-- Witness for C2: combining an acid at pH 3, 1 L with an acid at pH 5,
2 L gives the same result in either order. -/
theorem combinePH_comm_witness : combinePH 3 1 5 2 = combinePH 5 2 3 1 :=
  combinePH_comm 3 1 5 2 (Or.inl (by norm_num)) (by norm_num) (by norm_num)
    (by norm_num)

/-- C5 counterexample: the repository fixes Avogadro's number at 6.023E23
(doc/model.md, Definitions), so at volume 1 L the number of water molecules
is 55 times 6.023e23, not 55 times 6.022e23 as the claim states. -/
theorem moleculesH2O_one_ne_claimed : moleculesH2O 1 ≠ 55 * 6.022e23 := by
  unfold moleculesH2O AVOGADROS_NUMBER
  norm_num

/-- C5 amended: for every pH and volume at least 0, the molecule count of
each species equals its mole count times the repository's Avogadro number
6.023e23; in particular the number of hydronium molecules is
10 to the power of the negated pH, times 6.023e23, times the volume, and
the number of water molecules is 55 times 6.023e23 times the volume. -/
theorem molecules_eq_moles_mul_avogadro (pH volume : ℝ) (hv : 0 ≤ volume) :
    moleculesH3O pH volume = molesH3O pH volume * AVOGADROS_NUMBER ∧
    moleculesOH pH volume = molesOH pH volume * AVOGADROS_NUMBER ∧
    moleculesH2O volume = molesH2O volume * AVOGADROS_NUMBER ∧
    moleculesH3O pH volume = (10 : ℝ) ^ (-pH) * 6.023e23 * volume ∧
    moleculesH2O volume = 55 * 6.023e23 * volume := by
  unfold moleculesH3O moleculesOH moleculesH2O molesH3O molesOH molesH2O
  unfold concentrationH3O concentrationOH AVOGADROS_NUMBER
  refine ⟨by ring, by ring, by ring, by ring, by ring⟩

/-- Witness for C5 amended: at pH 7 and volume 1 the molecule counts equal
the mole counts times 6.023e23. -/
theorem molecules_eq_moles_mul_avogadro_witness :
    moleculesH2O 1 = molesH2O 1 * AVOGADROS_NUMBER :=
  (molecules_eq_moles_mul_avogadro 7 1 (by norm_num)).2.2.1

/-- C6: for every mole count and every volume at most 0, recovering pH
from moles fails with a DomainError for both hydronium and hydroxide,
while for positive volume it returns the negated base-10 logarithm of
moles over volume (respectively 14 plus that logarithm). -/
theorem pHFromMoles_domain_error (n volume : ℝ) :
    (volume ≤ 0 →
      pHFromMolesH3O n volume = Except.error DomainError.mk ∧
      pHFromMolesOH n volume = Except.error DomainError.mk) ∧
    (0 < volume →
      pHFromMolesH3O n volume = Except.ok (-(Real.logb 10 (n / volume))) ∧
      pHFromMolesOH n volume = Except.ok (14 + Real.logb 10 (n / volume))) := by
  constructor
  · intro h
    exact ⟨by simp [pHFromMolesH3O, h], by simp [pHFromMolesOH, h]⟩
  · intro h
    have h' : ¬ volume ≤ 0 := not_le.mpr h
    exact ⟨by simp [pHFromMolesH3O, h'], by simp [pHFromMolesOH, h']⟩

/-- Witness for C6: at volume -1 both conversions fail with a DomainError,
and at volume 1 the hydronium conversion returns the formula value. -/
theorem pHFromMoles_domain_error_witness :
    pHFromMolesH3O 2 (-1) = Except.error DomainError.mk ∧
    pHFromMolesOH 2 (-1) = Except.error DomainError.mk ∧
    pHFromMolesH3O 2 1 = Except.ok (-(Real.logb 10 (2 / 1))) := by
  refine ⟨((pHFromMoles_domain_error 2 (-1)).1 (by norm_num)).1,
          ((pHFromMoles_domain_error 2 (-1)).1 (by norm_num)).2,
          ((pHFromMoles_domain_error 2 1).2 (by norm_num)).1⟩

/-- C7: when the solution's total volume is 0 the pH property is null and
the pH-derived ratio is null; moreover, for every pH value, the ratio
property of RatioNode is null exactly when the pH is null. -/
theorem ratioProperty_null_iff_pH_null (pH : ℝ) (totalVolume : ℝ)
    (hv : totalVolume = 0) :
    solutionPHProperty totalVolume pH = none ∧
    ratioProperty (solutionPHProperty totalVolume pH) = none ∧
    ∀ p : Option ℝ, (ratioProperty p = none ↔ p = none) := by
  subst hv
  refine ⟨by simp [solutionPHProperty], by simp [solutionPHProperty, ratioProperty], ?_⟩
  intro p
  cases p <;> simp [ratioProperty]

/-- Witness for C7: with an empty beaker (total volume 0) the pH property
and the ratio property are both null. -/
theorem ratioProperty_null_iff_pH_null_witness :
    solutionPHProperty 0 7 = none ∧
    ratioProperty (solutionPHProperty 0 7) = none :=
  ⟨(ratioProperty_null_iff_pH_null 7 0 rfl).1,
   (ratioProperty_null_iff_pH_null 7 0 rfl).2.1⟩

/-- C8: a volume strictly between 0 and 0.015 L is replaced by the floor
0.015 L, a volume of exactly 0 is left as 0, and volumes at or above
0.015 L are used unchanged. -/
theorem displayedVolume_floor (volume : ℚ) :
    (0 < volume ∧ volume < 0.015 → displayedVolume volume = 0.015) ∧
    (volume = 0 → displayedVolume volume = 0) ∧
    (0.015 ≤ volume → displayedVolume volume = volume) := by
  refine ⟨fun h => ?_, fun h => ?_, fun h => ?_⟩
  · have h1 : volume ≠ 0 := ne_of_gt h.1
    have h2 : volume < MIN_SOLUTION_VOLUME := by
      unfold MIN_SOLUTION_VOLUME
      exact h.2
    unfold displayedVolume
    rw [if_pos ⟨h1, h2⟩]
    norm_num [MIN_SOLUTION_VOLUME]
  · subst h
    unfold displayedVolume
    rw [if_neg (by simp)]
  · have h2 : ¬ volume < MIN_SOLUTION_VOLUME := by
      unfold MIN_SOLUTION_VOLUME
      exact not_lt.mpr h
    unfold displayedVolume
    rw [if_neg (fun hc => h2 hc.2)]

/-- Witness for C8: the volume 0.01 L is displayed as 0.015 L, the volume
0 stays 0, and the volume 0.5 L is unchanged. -/
theorem displayedVolume_floor_witness :
    displayedVolume 0.01 = 0.015 ∧ displayedVolume 0 = 0 ∧
    displayedVolume 0.5 = 0.5 :=
  ⟨(displayedVolume_floor 0.01).1 (by norm_num),
   (displayedVolume_floor 0).2.1 rfl,
   (displayedVolume_floor 0.5).2.2 (by norm_num)⟩

/-- C9: on positive values, yToValue is the exact inverse of valueToY in
exact real arithmetic, for every scale geometry whose tick span (scale
height minus twice the margin) is non-degenerate. -/
theorem yToValue_valueToY (scaleHeight scaleYMargin value : ℝ)
    (hval : 0 < value) (hH : scaleHeight - 2 * scaleYMargin ≠ 0) :
    yToValue scaleHeight scaleYMargin (valueToY scaleHeight scaleYMargin value)
      = value := by
  have key : linearMap 0 (scaleHeight - 2 * scaleYMargin)
      LOGARITHMIC_EXPONENT_MAX LOGARITHMIC_EXPONENT_MIN
      (valueToY scaleHeight scaleYMargin value - scaleYMargin)
      = Real.logb 10 value := by
    unfold valueToY linearMap LOGARITHMIC_EXPONENT_MAX LOGARITHMIC_EXPONENT_MIN
    rw [if_neg (ne_of_gt hval)]
    field_simp
    ring
  unfold yToValue
  rw [key]
  exact Real.rpow_logb (by norm_num) (by norm_num) hval

/-- Witness for C9: with the default scale height 100, margin 30, the round
trip returns the value 1. -/
theorem yToValue_valueToY_witness : yToValue 100 30 (valueToY 100 30 1) = 1 :=
  yToValue_valueToY 100 30 1 (by norm_num) (by norm_num)

/-- At pH 8 (top of the logarithmic range) the computed number of
hydronium molecules is 5. -/
theorem computeNumberOfH3O_at_eight : computeNumberOfH3O 8 = 5 := by
  unfold computeNumberOfH3O concentrationH3O TOTAL_MOLECULES_AT_PH_7
  rw [show (-(8 : ℝ)) = ((-8 : ℤ) : ℝ) by norm_num, Real.rpow_intCast]
  rw [show (10 : ℝ) ^ (-8 : ℤ) * (100 / 2) / 1e-7 = ((5 : ℤ) : ℝ) by norm_num]
  rw [roundSymmetric_intCast]
  norm_num

/-- At pH 8 (top of the logarithmic range) the computed number of
hydroxide molecules is 500. -/
theorem computeNumberOfOH_at_eight : computeNumberOfOH 8 = 500 := by
  unfold computeNumberOfOH concentrationOH TOTAL_MOLECULES_AT_PH_7
  rw [show ((8 : ℝ) - 14) = ((-6 : ℤ) : ℝ) by norm_num, Real.rpow_intCast]
  rw [show (10 : ℝ) ^ (-6 : ℤ) * (100 / 2) / 1e-7 = ((500 : ℤ) : ℝ) by norm_num]
  rw [roundSymmetric_intCast]
  norm_num

/-- At pH 6 (bottom of the logarithmic range) the computed number of
hydronium molecules is 500. -/
theorem computeNumberOfH3O_at_six : computeNumberOfH3O 6 = 500 := by
  unfold computeNumberOfH3O concentrationH3O TOTAL_MOLECULES_AT_PH_7
  rw [show (-(6 : ℝ)) = ((-6 : ℤ) : ℝ) by norm_num, Real.rpow_intCast]
  rw [show (10 : ℝ) ^ (-6 : ℤ) * (100 / 2) / 1e-7 = ((500 : ℤ) : ℝ) by norm_num]
  rw [roundSymmetric_intCast]
  norm_num

/-- At pH 6 (bottom of the logarithmic range) the computed number of
hydroxide molecules is 5. -/
theorem computeNumberOfOH_at_six : computeNumberOfOH 6 = 5 := by
  unfold computeNumberOfOH concentrationOH TOTAL_MOLECULES_AT_PH_7
  rw [show ((6 : ℝ) - 14) = ((-8 : ℤ) : ℝ) by norm_num, Real.rpow_intCast]
  rw [show (10 : ℝ) ^ (-8 : ℤ) * (100 / 2) / 1e-7 = ((5 : ℤ) : ℝ) by norm_num]
  rw [roundSymmetric_intCast]
  norm_num

/-- C10: in RatioNode.update, whenever the pH is non-null the computed
molecule counts for both species passed to setNumberOfMolecules are each
at least MIN_MINORITY_MOLECULES, that is 5, and the pair of counts is
(0, 0) exactly when the pH is null. -/
theorem updateCounts_min_minority (pH : Option ℝ) :
    (pH ≠ none → 5 ≤ (updateCounts pH).1 ∧ 5 ≤ (updateCounts pH).2) ∧
    (updateCounts pH = (0, 0) ↔ pH = none) := by
  have hsome : ∀ p : ℝ,
      5 ≤ (updateCounts (some p)).1 ∧ 5 ≤ (updateCounts (some p)).2 := by
    intro p
    simp only [updateCounts]
    split_ifs with h1 h2
    · constructor
      · refine le_roundSymmetric_of_le (by norm_num) ?_
        rw [le_max_iff]
        left
        norm_num [MIN_MINORITY_MOLECULES]
      · refine le_roundSymmetric_of_le (by norm_num) ?_
        rw [le_max_iff]
        left
        norm_num [MIN_MINORITY_MOLECULES]
    · constructor
      · refine le_roundSymmetric_of_le (by norm_num) ?_
        rw [le_max_iff]
        left
        norm_num [MIN_MINORITY_MOLECULES]
      · refine le_roundSymmetric_of_le (by norm_num) ?_
        rw [computeNumberOfOH_at_eight]
        have hp : 0 < p - 8 := by linarith
        have hN : (0 : ℝ) ≤ (p - 8) * ((MAX_MAJORITY_MOLECULES - 500) / (15 - 8)) := by
          refine mul_nonneg hp.le ?_
          norm_num [MAX_MAJORITY_MOLECULES]
        push_cast
        linarith
    · have hp6 : p < 6 := by
        push_neg at h1
        by_contra hc
        push_neg at hc
        exact h2 (h1 hc)
      constructor
      · refine le_roundSymmetric_of_le (by norm_num) ?_
        rw [computeNumberOfH3O_at_six, computeNumberOfOH_at_eight]
        have hp : 0 < 6 - p := by linarith
        have hN : (0 : ℝ) ≤ (6 - p) * ((MAX_MAJORITY_MOLECULES - 500) / (15 - 8)) := by
          refine mul_nonneg hp.le ?_
          norm_num [MAX_MAJORITY_MOLECULES]
        push_cast
        linarith
      · refine le_roundSymmetric_of_le (by norm_num) ?_
        rw [le_max_iff]
        left
        norm_num [MIN_MINORITY_MOLECULES]
  constructor
  · intro hne
    cases pH with
    | none => exact absurd rfl hne
    | some p => exact hsome p
  · constructor
    · intro h0
      cases pH with
      | none => rfl
      | some p =>
        exfalso
        have h5 := (hsome p).1
        rw [h0] at h5
        norm_num at h5
    · intro h
      subst h
      rfl

/-- Witness for C10: at pH 7 both counts are at least 5, and a null pH
gives the count pair (0, 0). -/
theorem updateCounts_min_minority_witness :
    5 ≤ (updateCounts (some 7)).1 ∧ 5 ≤ (updateCounts (some 7)).2 ∧
    updateCounts none = (0, 0) :=
  ⟨((updateCounts_min_minority (some 7)).1 (Option.some_ne_none 7)).1,
   ((updateCounts_min_minority (some 7)).1 (Option.some_ne_none 7)).2,
   (updateCounts_min_minority none).2.mpr rfl⟩

end PHScale
